import Mathlib

/-!
Shallow embedding of the FoodManagement repository's scoring core:
inventory status transitions (`inventory/models.py`), the expiration risk
predictor (`ai_analytics/expiration_predictor.py`), the waste estimator
(`ai_analytics/waste_estimator.py`), the rule-based meal optimizer
(`ai_analytics/meal_optimizer.py`) and the SDG impact scorer
(`ai_analytics/sdg_scorer.py`).

Dates are modelled as integers (days since an arbitrary epoch), so
`(expiration_date - today).days` becomes integer subtraction.  Python's
numeric values (floats and `Decimal`) are modelled as rationals; `round(x, 2)`
becomes `round2` below.  Django querysets become Lean lists, `.filter`
becomes `List.filter`, and the per-user constructor filters are applied
explicitly where each method applies them.
-/

namespace FoodManagement

/-- The four inventory statuses of `InventoryItem.STATUS_CHOICES`. -/
inductive Status
| fresh
| expiring_soon
| expired
| consumed
deriving DecidableEq, Repr

/-- Python's `round(x, 2)` on the rational model: round to 2 decimal places
(half rounded up; the tie-breaking direction is irrelevant to every claim). -/
def round2 (x : ℚ) : ℚ := (⌊x * 100 + 1/2⌋ : ℤ) / 100

/-- `max(0, min(100, x))`, the clamp applied by the scorers before returning. -/
def clamp0_100 (x : ℚ) : ℚ := max 0 (min 100 x)

/-! ## inventory/models.py : InventoryItem status logic -/

/-- The fields of `InventoryItem` read by `is_expired`, `is_expiring_soon`
and `update_status` (the other columns are never consulted by them). -/
structure InvItem where
  expiration_date : Option ℤ
  status : Status
deriving DecidableEq, Repr

/-- `InventoryItem.is_expiring_soon`: true when an expiration date exists and
`0 <= (expiration_date - today).days <= 3`. -/
def is_expiring_soon (today : ℤ) (it : InvItem) : Bool :=
  match it.expiration_date with
  | some d => decide (0 ≤ d - today) && decide (d - today ≤ 3)
  | none => false

/-- `InventoryItem.is_expired`: true when an expiration date exists and is
strictly before today. -/
def is_expired (today : ℤ) (it : InvItem) : Bool :=
  match it.expiration_date with
  | some d => decide (d < today)
  | none => false

/-- `InventoryItem.update_status`: sets `expired`, else `expiring_soon`, else
`fresh` unless the current status is `consumed`. -/
def update_status (today : ℤ) (it : InvItem) : InvItem :=
  if is_expired today it then ⟨it.expiration_date, Status.expired⟩
  else if is_expiring_soon today it then ⟨it.expiration_date, Status.expiring_soon⟩
  else if it.status ≠ Status.consumed then ⟨it.expiration_date, Status.fresh⟩
  else it

/-- The classification of a non-consumed item as stated in the claim:
`expired` exactly when the expiration date is strictly before today,
`expiring_soon` exactly when `0 ≤ days_until_expiry ≤ 3`, `fresh` otherwise,
and an item with no expiration date is always `fresh`. -/
def classify_status (today : ℤ) (exp : Option ℤ) : Status :=
  match exp with
  | none => Status.fresh
  | some d =>
    if d < today then Status.expired
    else if 0 ≤ d - today ∧ d - today ≤ 3 then Status.expiring_soon
    else Status.fresh

/-! ## ai_analytics/expiration_predictor.py : ExpirationRiskPredictor -/

/-- One row of `CATEGORY_EXPIRATION_RATES`. -/
structure CategoryData where
  base_days : ℚ
  risk_multiplier : ℚ
  seasonal_sensitive : Bool

/-- `ExpirationRiskPredictor.CATEGORY_EXPIRATION_RATES` with the
`.get(category, default)` fallback row used by `_calculate_risk_score`
(`base_days` 14, multiplier 1.0, not seasonal). -/
def CATEGORY_EXPIRATION_RATES (c : String) : CategoryData :=
  if c = "fruit" then ⟨7, 3/2, true⟩
  else if c = "vegetable" then ⟨10, 13/10, true⟩
  else if c = "dairy" then ⟨5, 7/5, false⟩
  else if c = "meat" then ⟨3, 8/5, false⟩
  else if c = "grain" then ⟨30, 4/5, false⟩
  else if c = "beverage" then ⟨14, 1, false⟩
  else if c = "snack" then ⟨60, 7/10, false⟩
  else if c = "frozen" then ⟨90, 1/2, false⟩
  else if c = "canned" then ⟨365, 3/10, false⟩
  else ⟨14, 1, false⟩

/-- `ExpirationRiskPredictor.SEASONAL_FACTORS` as a total function; the
double `.get` default for a missing season or category is 1.0. -/
def SEASONAL_FACTORS (season c : String) : ℚ :=
  if season = "spring" then
    if c = "fruit" then 6/5 else if c = "vegetable" then 11/10 else 1
  else if season = "summer" then
    if c = "fruit" then 3/2 else if c = "vegetable" then 13/10
    else if c = "dairy" then 6/5 else if c = "meat" then 11/10 else 1
  else if season = "autumn" then
    if c = "fruit" then 11/10 else 1
  else if season = "winter" then
    if c = "fruit" then 9/10 else if c = "vegetable" then 4/5
    else if c = "dairy" then 9/10 else 1
  else 1

/-- The per-category consumption pattern consulted by the risk scorer:
`avg_daily` and `frequency` from `_analyze_consumption_patterns`; a category
absent from the dict yields the `.get` defaults `avg_daily = 0`,
`frequency = 0`. -/
structure Pattern where
  avg_daily : ℚ
  frequency : ℚ
deriving DecidableEq, Repr

/-- The columns of an inventory row read by the risk predictor. -/
structure RiskItem where
  category : String
  quantity : ℚ
  purchase_date : Option ℤ
  expiration_date : Option ℤ
  status : Status
deriving DecidableEq, Repr

/-- The time-until-expiry component of `_calculate_risk_score`: the branch
`days_until_expiry <= 0` yields 100, `<= 1` yields 90, `<= 3` yields 75,
`<= 7` yields 60, otherwise `max(20, 60 - (days - 7) * 2)`. -/
def time_risk (days_until_expiry : ℤ) : ℚ :=
  if days_until_expiry ≤ 0 then 100
  else if days_until_expiry ≤ 1 then 90
  else if days_until_expiry ≤ 3 then 75
  else if days_until_expiry ≤ 7 then 60
  else max 20 (60 - ((days_until_expiry : ℚ) - 7) * 2)

/-- `ExpirationRiskPredictor._calculate_risk_score`: time risk scaled by the
category multiplier and (for seasonal-sensitive categories) the seasonal
factor, plus the consumption-pattern risk and the household adjustment,
clamped to [0, 100] and rounded to 2 decimals.  An item without an
expiration date scores 0 (the early return). -/
def calculate_risk_score (today : ℤ) (item : RiskItem) (pattern : Pattern)
    (season : String) (household_size : ℕ) : ℚ :=
  match item.expiration_date with
  | none => 0
  | some exp =>
    let days_until_expiry := exp - today
    let tr := time_risk days_until_expiry
    let cd := CATEGORY_EXPIRATION_RATES item.category
    let category_risk :=
      if cd.seasonal_sensitive then
        tr * cd.risk_multiplier * SEASONAL_FACTORS season item.category
      else tr * cd.risk_multiplier
    let consumption_risk : ℚ :=
      if 0 < pattern.avg_daily then
        let days_to_consume := item.quantity / pattern.avg_daily
        let base :=
          if (days_until_expiry : ℚ) < days_to_consume then
            min 30 ((days_to_consume - (days_until_expiry : ℚ)) * 5)
          else 0
        if 7 < pattern.frequency then base + 10 else base
      else 0
    let household_adjustment : ℚ :=
      if 1 < household_size then -5 * ((household_size : ℚ) - 1) else 0
    round2 (clamp0_100 (category_risk + consumption_risk + household_adjustment))

/-- `ExpirationRiskPredictor._determine_priority` over `RISK_THRESHOLDS`. -/
def determine_priority (risk_score : ℚ) : String :=
  if 80 ≤ risk_score then "critical"
  else if 60 ≤ risk_score then "high"
  else if 40 ≤ risk_score then "medium"
  else "low"

/-- `ExpirationRiskPredictor._calculate_ai_ranking_score`: FIFO age bonus,
half-weighted risk score, expiration-proximity bonus and category urgency
bonus, rounded to 2 decimals. -/
def calculate_ai_ranking_score (today : ℤ) (item : RiskItem) (risk_score : ℚ) : ℚ :=
  let fifo_score : ℚ :=
    match item.purchase_date with
    | some p => min 50 (((today - p : ℤ) : ℚ) * 2)
    | none => 0
  let risk_component := risk_score * (1/2)
  let proximity_bonus : ℚ :=
    match item.expiration_date with
    | some e =>
      let d := e - today
      if d ≤ 0 then 50
      else if d ≤ 1 then 40
      else if d ≤ 3 then 30
      else if d ≤ 7 then 20
      else max 0 (20 - (d : ℚ))
    | none => 0
  let urgency_bonus := (1 - (CATEGORY_EXPIRATION_RATES item.category).risk_multiplier / 2) * 10
  round2 (fifo_score + risk_component + proximity_bonus + urgency_bonus)

/-- The fields of one entry of the list built by `predict_expiration_risks`
that later code reads (the `reasoning`/`recommended_action` strings and the
echoed name/category/date columns are presentation-only and omitted). -/
structure Prediction where
  item : RiskItem
  days_until_expiry : ℤ
  risk_score : ℚ
  ai_ranking_score : ℚ
  priority : String
deriving DecidableEq, Repr

/-- The descending-ranking-score order used to sort predictions
(`key=lambda x: x['ai_ranking_score'], reverse=True`). -/
def rankGE (a b : Prediction) : Prop := b.ai_ranking_score ≤ a.ai_ranking_score

instance : DecidableRel rankGE := fun a b =>
  inferInstanceAs (Decidable (b.ai_ranking_score ≤ a.ai_ranking_score))

instance : IsTotal Prediction rankGE :=
  ⟨fun a b => le_total b.ai_ranking_score a.ai_ranking_score⟩

instance : IsTrans Prediction rankGE :=
  ⟨fun _ _ _ hab hbc => le_trans hbc hab⟩

/-- `ExpirationRiskPredictor.predict_expiration_risks`: keep the non-consumed
items having an expiration date at most `today + days_ahead` (the
constructor's queryset and the method's filter combined), score each, and
sort by AI ranking score descending.  The `expiration_date.getD today`
projection is only ever applied to items that passed the
`expiration_date__isnull=False` filter, which guarantees a date is present. -/
def predict_expiration_risks (today days_ahead : ℤ) (items : List RiskItem)
    (patterns : String → Pattern) (season : String) (household_size : ℕ) :
    List Prediction :=
  let target_date := today + days_ahead
  let items_with_dates := items.filter fun it =>
    (match it.expiration_date with
     | some e => decide (e ≤ target_date)
     | none => false) && !(it.status == Status.consumed)
  let predictions := items_with_dates.map fun it =>
    let risk_score := calculate_risk_score today it (patterns it.category) season household_size
    ⟨it, it.expiration_date.getD today - today, risk_score,
     calculate_ai_ranking_score today it risk_score,
     determine_priority risk_score⟩
  List.insertionSort rankGE predictions

/-- `ExpirationRiskPredictor.get_high_risk_alerts`: loop over the 7-day
predictions appending those with priority critical or high, then truncate to
`limit` (`alerts[:limit]`). -/
def get_high_risk_alerts (today : ℤ) (limit : ℕ) (items : List RiskItem)
    (patterns : String → Pattern) (season : String) (household_size : ℕ) :
    List Prediction :=
  let predictions := predict_expiration_risks today 7 items patterns season household_size
  let alerts := predictions.foldl
    (fun acc p => if p.priority == "critical" || p.priority == "high" then acc ++ [p] else acc) []
  alerts.take limit

/-! ## ai_analytics/waste_estimator.py : WasteEstimator -/

/-- The columns of an inventory row read by the waste estimator. -/
structure WasteItem where
  category : String
  quantity : ℚ
  unit : String
  purchase_date : ℤ
  expiration_date : Option ℤ
  status : Status
deriving DecidableEq, Repr

/-- The multiplier table of `WasteEstimator._convert_to_grams`; unknown units
default to 100 g per unit.  Stored units are already lowercase, so the
`.lower()` call is the identity on every input the model ranges over. -/
def gram_conversions (unit : String) : ℚ :=
  if unit = "kg" then 1000
  else if unit = "g" then 1
  else if unit = "lb" then 453592/1000
  else if unit = "oz" then 283495/10000
  else if unit = "l" then 1000
  else if unit = "ml" then 1
  else if unit = "cup" then 240
  else if unit = "piece" then 150
  else if unit = "serving" then 200
  else if unit = "pack" then 500
  else 100

/-- `WasteEstimator._convert_to_grams`. -/
def convert_to_grams (quantity : ℚ) (unit : String) : ℚ :=
  quantity * gram_conversions unit

/-- `WasteEstimator.CATEGORY_WASTE_RATES` with the `.get` default 0.15. -/
def CATEGORY_WASTE_RATES (c : String) : ℚ :=
  if c = "vegetable" then 1/4
  else if c = "fruit" then 1/5
  else if c = "dairy" then 3/20
  else if c = "meat" then 1/10
  else if c = "grain" then 1/20
  else if c = "beverage" then 2/25
  else if c = "snack" then 3/25
  else if c = "frozen" then 3/100
  else if c = "canned" then 1/50
  else 3/20

/-- The pattern-waste accumulation loop of
`WasteEstimator.estimate_weekly_waste`: over the items purchased in the last
7 days that are not consumed, the category waste rate is inflated by 1.2
when the category's consumption frequency exceeds 7, by 1.3 when the item's
expiration date is within 3 days, and the item's gram mass times the
resulting rate is added up. -/
def pattern_item_waste_grams (today : ℤ) (patterns : String → Pattern)
    (it : WasteItem) : ℚ :=
  let waste_rate := CATEGORY_WASTE_RATES it.category
  let waste_rate := if 7 < (patterns it.category).frequency then waste_rate * (6/5) else waste_rate
  let waste_rate :=
    match it.expiration_date with
    | some e => if e - today ≤ 3 then waste_rate * (13/10) else waste_rate
    | none => waste_rate
  convert_to_grams it.quantity it.unit * waste_rate

/-- The `pattern_waste_grams += estimated_waste` accumulation over the
filtered queryset. -/
def estimate_weekly_pattern_waste_grams (today : ℤ) (patterns : String → Pattern)
    (items : List WasteItem) : ℚ :=
  let purchased_items := items.filter fun it =>
    decide (today - 7 ≤ it.purchase_date) && !(it.status == Status.consumed)
  purchased_items.foldl
    (fun acc it => acc + pattern_item_waste_grams today patterns it) 0

/-- The pattern-waste total as the amended claim words it: a sum over the
non-consumed items purchased in the window of gram mass times the category
base rate times the 1.2 frequency multiplier times the 1.3
expiring-within-3-days multiplier. -/
def claimed_pattern_waste_grams (today : ℤ) (patterns : String → Pattern)
    (items : List WasteItem) : ℚ :=
  ((items.filter fun it =>
      decide (today - 7 ≤ it.purchase_date) && !(it.status == Status.consumed)).map
    fun it =>
      convert_to_grams it.quantity it.unit *
        (CATEGORY_WASTE_RATES it.category *
          (if 7 < (patterns it.category).frequency then 6/5 else 1) *
          (if (match it.expiration_date with
               | some e => decide (e - today ≤ 3)
               | none => false) then 13/10 else 1))).sum

/-- The week-before-last expired grams of `_calculate_waste_trend`: expired
items whose expiration date is in `[today - 14, today - 7)`. -/
def week1_expired_grams (today : ℤ) (items : List WasteItem) : ℚ :=
  ((items.filter fun it =>
      (it.status == Status.expired) &&
      (match it.expiration_date with
       | some e => decide (today - 14 ≤ e ∧ e < today - 7)
       | none => false)).map
    fun it => convert_to_grams it.quantity it.unit).sum

/-- The last-week expired grams of `_calculate_waste_trend`: expired items
whose expiration date is in `[today - 7, today]`. -/
def week2_expired_grams (today : ℤ) (items : List WasteItem) : ℚ :=
  ((items.filter fun it =>
      (it.status == Status.expired) &&
      (match it.expiration_date with
       | some e => decide (today - 7 ≤ e ∧ e ≤ today)
       | none => false)).map
    fun it => convert_to_grams it.quantity it.unit).sum

/-- `WasteEstimator._calculate_waste_trend`: the week-over-week expired-waste
ratio clamped to [0.9, 1.1], or 1.0 when the earlier week had no waste. -/
def calculate_waste_trend (today : ℤ) (items : List WasteItem) : ℚ :=
  let week1_waste := week1_expired_grams today items
  let week2_waste := week2_expired_grams today items
  if 0 < week1_waste then min (11/10) (max (9/10) (week2_waste / week1_waste))
  else 1

/-! ## ai_analytics/meal_optimizer.py : MealOptimizer -/

/-- The six nutrients of `NUTRITION_PER_SERVING` / `DAILY_TARGETS`. -/
inductive Nutrient
| calories
| protein
| fiber
| vitamins
| iron
| calcium
deriving DecidableEq, Repr

/-- The nutrient keys, in table order. -/
def allNutrients : List Nutrient :=
  [Nutrient.calories, Nutrient.protein, Nutrient.fiber,
   Nutrient.vitamins, Nutrient.iron, Nutrient.calcium]

/-- `MealOptimizer.NUTRITION_PER_SERVING`; the `.get(category, {})` default
yields 0 for every nutrient. -/
def NUTRITION_PER_SERVING (c : String) : Nutrient → ℚ :=
  if c = "vegetable" then fun n => match n with
    | Nutrient.calories => 25 | Nutrient.protein => 2 | Nutrient.fiber => 3
    | Nutrient.vitamins => 8 | Nutrient.iron => 1/2 | Nutrient.calcium => 2
  else if c = "fruit" then fun n => match n with
    | Nutrient.calories => 60 | Nutrient.protein => 1 | Nutrient.fiber => 2
    | Nutrient.vitamins => 9 | Nutrient.iron => 3/10 | Nutrient.calcium => 1
  else if c = "dairy" then fun n => match n with
    | Nutrient.calories => 150 | Nutrient.protein => 8 | Nutrient.fiber => 0
    | Nutrient.vitamins => 5 | Nutrient.iron => 1/10 | Nutrient.calcium => 10
  else if c = "meat" then fun n => match n with
    | Nutrient.calories => 200 | Nutrient.protein => 25 | Nutrient.fiber => 0
    | Nutrient.vitamins => 6 | Nutrient.iron => 8 | Nutrient.calcium => 1/2
  else if c = "grain" then fun n => match n with
    | Nutrient.calories => 100 | Nutrient.protein => 4 | Nutrient.fiber => 2
    | Nutrient.vitamins => 3 | Nutrient.iron => 1 | Nutrient.calcium => 1/2
  else if c = "beverage" then fun n => match n with
    | Nutrient.calories => 50 | Nutrient.protein => 0 | Nutrient.fiber => 0
    | Nutrient.vitamins => 2 | Nutrient.iron => 0 | Nutrient.calcium => 1
  else if c = "snack" then fun n => match n with
    | Nutrient.calories => 120 | Nutrient.protein => 2 | Nutrient.fiber => 1
    | Nutrient.vitamins => 1 | Nutrient.iron => 1/5 | Nutrient.calcium => 1/2
  else if c = "other" then fun n => match n with
    | Nutrient.calories => 80 | Nutrient.protein => 2 | Nutrient.fiber => 1
    | Nutrient.vitamins => 2 | Nutrient.iron => 3/10 | Nutrient.calcium => 1/2
  else fun _ => 0

/-- The `base` column of `MealOptimizer.LOCAL_COST_DATA` with the `.get`
default base 3.00. -/
def LOCAL_COST_DATA_base (c : String) : ℚ :=
  if c = "vegetable" then 5/2
  else if c = "fruit" then 3
  else if c = "dairy" then 4
  else if c = "meat" then 8
  else if c = "grain" then 2
  else if c = "beverage" then 5/2
  else if c = "snack" then 7/2
  else 3

/-- The `seasonal_factor` column of `LOCAL_COST_DATA`; the `.get` fallback
for an unknown category is 1.0. -/
def LOCAL_COST_DATA_seasonal (c : String) : ℚ :=
  if c = "vegetable" then 4/5
  else if c = "fruit" then 7/10
  else 1

/-- A `FoodItem` catalog row as read by `_suggest_meal_item_optimized` and
`_get_local_cost` (name and unit are echoed into the output only). -/
structure CatalogEntry where
  name : String
  sample_cost_per_unit : Option ℚ
deriving DecidableEq, Repr

/-- `MealOptimizer._get_local_cost`: the item's sample cost when present —
Python truthiness makes a stored cost of 0 fall back to the category base
exactly like a missing one — times the seasonal factor. -/
def get_local_cost (category : String) (fi : CatalogEntry) : ℚ :=
  let base_cost :=
    match fi.sample_cost_per_unit with
    | some c => if c = 0 then LOCAL_COST_DATA_base category else c
    | none => LOCAL_COST_DATA_base category
  base_cost * LOCAL_COST_DATA_seasonal category

/-- Remaining weekly per-nutrient targets. -/
def Targets : Type := Nutrient → ℚ

/-- The `nutrition_score` sum inside `_suggest_meal_item_optimized`: over
the nutrients with a positive remaining target, the fractional contribution
capped at 1, with the denominator guarded by `max(1, ·)`. -/
def nutrition_score_val (category : String) (remaining : Targets) : ℚ :=
  ((allNutrients.filter fun n => decide (0 < remaining n)).map
    fun n => min 1 (NUTRITION_PER_SERVING category n / max 1 (remaining n))).sum

/-- A catalog suggestion (`best_item`): its cost and category determine
every later state update. -/
structure Suggestion where
  cost : ℚ
  category : String
deriving DecidableEq, Repr

/-- One iteration of the inner loop of `_suggest_meal_item_optimized`:
skip the entry when its cost exceeds the remaining budget, otherwise keep
it if its value score (nutrition per dollar, or raw nutrition score for a
free item) beats the best so far. -/
def consider_entry (remaining_targets : Targets) (remaining_budget : ℚ)
    (category : String) (acc : Option Suggestion × ℚ) (fi : CatalogEntry) :
    Option Suggestion × ℚ :=
  let cost := get_local_cost category fi
  if remaining_budget < cost then acc
  else
    let ns := nutrition_score_val category remaining_targets
    let value_score := if 0 < cost then ns / cost else ns
    if acc.2 < value_score then (some ⟨cost, category⟩, value_score) else acc

/-- `MealOptimizer._suggest_meal_item_optimized`: fold the loops over the
preferred categories and their catalog rows, starting from
`best_item = None`, `best_score = -1`. -/
def suggest_meal_item_optimized (catalog : String → List CatalogEntry)
    (preferred : List String) (remaining_targets : Targets)
    (remaining_budget : ℚ) : Option Suggestion :=
  (preferred.foldl
    (fun acc category =>
      (catalog category).foldl (consider_entry remaining_targets remaining_budget category) acc)
    (none, -1)).1

/-- An inventory row as read by `_optimize_rule_based`. -/
structure MealInvItem where
  id : ℕ
  category : String
  quantity : ℚ
deriving DecidableEq, Repr

/-- `remaining_targets[nutrient] = max(0, remaining - value)` applied over
all nutrients of an assigned item. -/
def update_targets (t : Targets) (nutrition : Nutrient → ℚ) : Targets :=
  fun n => max 0 (t n - nutrition n)

/-- The optimizer state threaded through the 21 meal-slot allocations:
`used_inventory`, `remaining_targets`, `remaining_budget`, and the costs of
catalog-sourced assignments in allocation order. -/
structure OptState where
  used : List ℕ
  remaining_targets : Targets
  remaining_budget : ℚ
  assigned_catalog_costs : List ℚ

/-- One meal slot of `_optimize_rule_based`: first an unused expiring
inventory item of a preferred category (cost 0), else an unused fresh one,
else a budget-checked catalog suggestion that decrements the remaining
budget by its cost; otherwise nothing. -/
def allocate_slot (catalog : String → List CatalogEntry)
    (expiring fresh : List MealInvItem) (preferred : List String)
    (st : OptState) : OptState :=
  match expiring.find? (fun it => !(st.used.contains it.id) && preferred.contains it.category) with
  | some it =>
    ⟨st.used ++ [it.id],
     update_targets st.remaining_targets (fun n => NUTRITION_PER_SERVING it.category n * it.quantity),
     st.remaining_budget, st.assigned_catalog_costs⟩
  | none =>
    match fresh.find? (fun it => !(st.used.contains it.id) && preferred.contains it.category) with
    | some it =>
      ⟨st.used ++ [it.id],
       update_targets st.remaining_targets (fun n => NUTRITION_PER_SERVING it.category n * it.quantity),
       st.remaining_budget, st.assigned_catalog_costs⟩
    | none =>
      match suggest_meal_item_optimized catalog preferred st.remaining_targets st.remaining_budget with
      | some s =>
        ⟨st.used,
         update_targets st.remaining_targets (NUTRITION_PER_SERVING s.category),
         st.remaining_budget - s.cost,
         st.assigned_catalog_costs ++ [s.cost]⟩
      | none => st

/-- The fixed meal-slot preference lists of `meal_configs`. -/
def meal_configs : List (List String) :=
  [["grain", "fruit", "dairy"],
   ["vegetable", "meat", "grain"],
   ["meat", "vegetable", "grain"]]

/-- The 7 days × 3 meals slot sequence of `_optimize_rule_based`. -/
def week_slots : List (List String) := (List.replicate 7 meal_configs).flatten

/-- The state-evolution core of `MealOptimizer._optimize_rule_based`:
allocate the 21 slots in order starting from the full weekly targets, the
budget limit and no assignments. -/
def optimize_rule_based (catalog : String → List CatalogEntry)
    (expiring fresh : List MealInvItem) (budget_limit : ℚ)
    (weekly_targets : Targets) : OptState :=
  week_slots.foldl (fun st preferred => allocate_slot catalog expiring fresh preferred st)
    ⟨[], weekly_targets, budget_limit, []⟩

/-! ## ai_analytics/sdg_scorer.py : SDGImpactScorer -/

/-- A category imbalance record as consumed by
`_calculate_nutrition_score`. -/
structure Imbalance where
  kind : String
  severity : String
deriving DecidableEq, Repr

/-- The per-imbalance penalty of `_calculate_nutrition_score`: the
under-consumption arm deducts 20/12/6 by severity, the over-consumption arm
10/5, any other kind nothing. -/
def imbalance_penalty (imb : Imbalance) : ℚ :=
  if imb.kind = "under_consumption" then
    if imb.severity = "high" then 20
    else if imb.severity = "medium" then 12
    else 6
  else if imb.kind = "over_consumption" then
    if imb.severity = "high" then 10 else 5
  else 0

/-- The per-nutrient-gap penalty: 25 above 50%, 15 above 30%, 8 above 15%,
otherwise 3. -/
def gap_penalty (gap_pct : ℚ) : ℚ :=
  if 50 < gap_pct then 25
  else if 30 < gap_pct then 15
  else if 15 < gap_pct then 8
  else 3

/-- The category-variety bonus of `_calculate_nutrition_score`. -/
def variety_bonus (unique_categories : ℕ) : ℚ :=
  if 6 ≤ unique_categories then 15
  else if 5 ≤ unique_categories then 10
  else if 4 ≤ unique_categories then 5
  else if 3 ≤ unique_categories then 2
  else 0

/-- The logging-frequency bonus (14+ logs → 10, 7+ → 5). -/
def logging_bonus (count : ℕ) : ℚ :=
  if 14 ≤ count then 10 else if 7 ≤ count then 5 else 0

/-- The vegetable/fruit consumption bonus (10+ logs → 10, 5+ → 5). -/
def veg_fruit_bonus (count : ℕ) : ℚ :=
  if 10 ≤ count then 10 else if 5 ≤ count then 5 else 0

/-- `SDGImpactScorer._calculate_nutrition_score`: start at 100, subtract the
imbalance and gap penalties, add the variety, logging and vegetable/fruit
bonuses, clamp to [0, 100]. -/
def calculate_nutrition_score (imbalances : List Imbalance) (gap_pcts : List ℚ)
    (unique_categories logs_count veg_fruit_count : ℕ) : ℚ :=
  clamp0_100 (100 - (imbalances.map imbalance_penalty).sum - (gap_pcts.map gap_penalty).sum
    + variety_bonus unique_categories + logging_bonus logs_count
    + veg_fruit_bonus veg_fruit_count)

/-- The waste-to-community tier table of `_calculate_waste_reduction_score`
(community weekly average 500 g). -/
def waste_base_score (waste_grams : ℚ) : ℚ :=
  if waste_grams = 0 then 100
  else if waste_grams ≤ 500 * (3/10) then 95
  else if waste_grams ≤ 500 * (1/2) then 85
  else if waste_grams ≤ 500 * (7/10) then 75
  else if waste_grams ≤ 500 then 60
  else if waste_grams ≤ 500 * (3/2) then 45
  else 30

/-- `SDGImpactScorer._calculate_waste_trend_bonus` over the two weekly
expired-item counts. -/
def waste_trend_bonus (week1_expired week2_expired : ℕ) : ℚ :=
  if 0 < week1_expired then
    let improvement := (((week1_expired : ℚ) - week2_expired) / week1_expired) * 100
    if 50 < improvement then 15
    else if 25 < improvement then 10
    else if 0 < improvement then 5
    else 0
  else if week2_expired = 0 ∧ week1_expired = 0 then 5
  else 0

/-- `SDGImpactScorer._calculate_waste_reduction_score`: tier base plus trend
bonus minus the capped expired-item penalty plus the capped usage bonus,
clamped to [0, 100]. -/
def calculate_waste_reduction_score (waste_grams : ℚ)
    (trend_week1 trend_week2 expired_count expiring_used : ℕ) : ℚ :=
  clamp0_100 (waste_base_score waste_grams
    + waste_trend_bonus trend_week1 trend_week2
    - min 25 ((expired_count : ℚ) * 5)
    + min 10 ((expiring_used : ℚ) * 2))

/-- `SDGImpactScorer._calculate_sustainability_score`: 60 base plus the
waste tier, expiring-usage and logging bonuses, clamped to [0, 100]. -/
def calculate_sustainability_score (waste_grams : ℚ)
    (expiring_used week_logs : ℕ) : ℚ :=
  clamp0_100 (60
    + (if waste_grams ≤ 500 * (1/2) then 20
       else if waste_grams ≤ 500 * (7/10) then 15
       else if waste_grams ≤ 500 then 10
       else if waste_grams ≤ 500 * (6/5) then 5
       else 0)
    + (if 5 ≤ expiring_used then 15
       else if 3 ≤ expiring_used then 10
       else if 1 ≤ expiring_used then 5
       else 0)
    + (if 14 ≤ week_logs then 10 else if 7 ≤ week_logs then 5 else 0))

/-- The collaborator-derived quantities `calculate_sdg_score` feeds to its
three component scorers (each is an owner-scoped query result). -/
structure SDGInputs where
  waste_grams : ℚ
  trend_week1 : ℕ
  trend_week2 : ℕ
  expired_count : ℕ
  expiring_used : ℕ
  imbalances : List Imbalance
  gap_pcts : List ℚ
  unique_categories : ℕ
  week_logs : ℕ
  veg_fruit_logs : ℕ
  sust_expiring_used : ℕ
  sust_week_logs : ℕ

/-- The numeric fields of the dictionary returned by
`calculate_sdg_score`. -/
structure SDGResult where
  overall_score : ℚ
  waste_reduction_score : ℚ
  nutrition_score : ℚ
  sustainability_score : ℚ
deriving DecidableEq, Repr

/-- `SDGImpactScorer.calculate_sdg_score`: the three component scores
weighted 0.40 / 0.35 / 0.25 and rounded to 2 decimals. -/
def calculate_sdg_score (inp : SDGInputs) : SDGResult :=
  let waste_score := calculate_waste_reduction_score inp.waste_grams
    inp.trend_week1 inp.trend_week2 inp.expired_count inp.expiring_used
  let nutrition_score := calculate_nutrition_score inp.imbalances inp.gap_pcts
    inp.unique_categories inp.week_logs inp.veg_fruit_logs
  let sustainability_score := calculate_sustainability_score inp.waste_grams
    inp.sust_expiring_used inp.sust_week_logs
  let overall_score := waste_score * (2/5) + nutrition_score * (7/20)
    + sustainability_score * (1/4)
  ⟨round2 overall_score, round2 waste_score, round2 nutrition_score,
   round2 sustainability_score⟩

end FoodManagement

namespace FoodManagement

/-- Claim C2 (failing input): an item already marked `consumed` whose
expiration date lies in the past is relabelled `expired` by `update_status`,
because the `is_expired` branch precedes the consumed guard.  With today = 0
and expiration date -1, the stored status changes from `consumed` to
`expired`. -/
theorem c2_consumed_item_relabelled_expired :
    update_status 0 ⟨some (-1), Status.consumed⟩ = ⟨some (-1), Status.expired⟩ ∧
    Status.expired ≠ Status.consumed := by
  decide

/-- Claim C10: for every non-consumed item, `update_status` assigns exactly
the 3-day classification: `expired` iff the expiration date is strictly
before today, `expiring_soon` iff `0 ≤ days_until_expiry ≤ 3`, `fresh`
otherwise; an item with no expiration date is never marked `expired` or
`expiring_soon`. -/
theorem c10_update_status_classifies (today : ℤ) (it : InvItem)
    (h : it.status ≠ Status.consumed) :
    (update_status today it).status = classify_status today it.expiration_date := by
  rcases it with ⟨exp, st⟩
  rcases exp with _ | d
  · simp [update_status, classify_status, is_expired, is_expiring_soon, h]
  · simp only [update_status, classify_status, is_expired, is_expiring_soon,
      decide_eq_true_eq, Bool.and_eq_true, ne_eq]
    split_ifs <;> simp_all

/-- Witness for C10 at a concrete input: a fresh item expiring in 2 days is
reclassified as `expiring_soon`. -/
theorem c10_update_status_classifies_witness :
    (update_status 0 ⟨some 2, Status.fresh⟩).status = classify_status 0 (some 2) ∧
    classify_status 0 (some 2) = Status.expiring_soon :=
  ⟨c10_update_status_classifies 0 ⟨some 2, Status.fresh⟩ (by decide), by decide⟩

/-- An item expiring today has `days_until_expiry = 0` and the code's
`days_until_expiry <= 0` branch assigns it time risk 100, not 90; 100 is not
reserved for strictly negative `days_until_expiry`.  This is the concrete
input refuting claim C1 as stated. -/
theorem c1_time_risk_today_counterexample :
    time_risk 0 = 100 ∧ time_risk 0 ≠ 90 ∧ ¬ ((0 : ℤ) < 0) := by
  refine ⟨by norm_num [time_risk], by norm_num [time_risk], by omega⟩

/-- Claim C1 as amended: the time-risk contribution is 100 exactly when
`days_until_expiry ≤ 0` (expired items and items expiring today alike), and
90 exactly when `days_until_expiry = 1`. -/
theorem c1_time_risk_amended (d : ℤ) :
    (time_risk d = 100 ↔ d ≤ 0) ∧ (time_risk d = 90 ↔ d = 1) := by
  unfold time_risk
  split_ifs with h1 h2 h3 h4
  · exact ⟨⟨fun _ => h1, fun _ => rfl⟩,
      ⟨fun h => by norm_num at h, fun h => by omega⟩⟩
  · exact ⟨⟨fun h => by norm_num at h, fun h => absurd h h1⟩,
      ⟨fun _ => by omega, fun _ => rfl⟩⟩
  · exact ⟨⟨fun h => by norm_num at h, fun h => absurd h h1⟩,
      ⟨fun h => by norm_num at h, fun h => by omega⟩⟩
  · exact ⟨⟨fun h => by norm_num at h, fun h => absurd h h1⟩,
      ⟨fun h => by norm_num at h, fun h => by omega⟩⟩
  · have hd : (8 : ℚ) ≤ (d : ℚ) := by exact_mod_cast (by omega : (8 : ℤ) ≤ d)
    have hle : max 20 (60 - ((d : ℚ) - 7) * 2) ≤ 58 :=
      max_le (by norm_num) (by linarith)
    exact ⟨⟨fun h => by rw [h] at hle; norm_num at hle, fun h => absurd h h1⟩,
      ⟨fun h => by rw [h] at hle; norm_num at hle, fun h => by omega⟩⟩

/-- Witness for C1 (amended): at `days_until_expiry = 0` the time risk is
100, at 1 it is 90. -/
theorem c1_time_risk_amended_witness :
    time_risk 0 = 100 ∧ time_risk 1 = 90 :=
  ⟨(c1_time_risk_amended 0).1.mpr (by omega),
   (c1_time_risk_amended 1).2.mpr rfl⟩

/-- `round2` keeps a value of [0, B] inside [0, B] for a natural bound B. -/
theorem round2_mem_of_mem {x : ℚ} (h0 : 0 ≤ x) (h1 : x ≤ 100) :
    0 ≤ round2 x ∧ round2 x ≤ 100 := by
  unfold round2
  constructor
  · have h : (0 : ℤ) ≤ ⌊x * 100 + 1/2⌋ := Int.floor_nonneg.mpr (by linarith)
    exact div_nonneg (by exact_mod_cast h) (by norm_num)
  · have h : ⌊x * 100 + 1/2⌋ ≤ 10000 := by
      rw [Int.floor_le_iff]
      push_cast
      linarith
    rw [div_le_iff₀ (by norm_num : (0:ℚ) < 100)]
    calc ((⌊x * 100 + 1/2⌋ : ℤ) : ℚ) ≤ (10000 : ℚ) := by exact_mod_cast h
    _ = 100 * 100 := by norm_num

/-- The clamp `max(0, min(100, x))` lands in [0, 100]. -/
theorem clamp0_100_mem (x : ℚ) : 0 ≤ clamp0_100 x ∧ clamp0_100 x ≤ 100 :=
  ⟨le_max_left 0 _, max_le (by norm_num) (min_le_left 100 x)⟩

/-- A risk score is either the early-return 0 (no expiration date) or a
clamped-and-rounded sum. -/
theorem calculate_risk_score_shape (today : ℤ) (item : RiskItem) (pattern : Pattern)
    (season : String) (household_size : ℕ) :
    calculate_risk_score today item pattern season household_size = 0 ∨
    ∃ F, calculate_risk_score today item pattern season household_size = round2 (clamp0_100 F) := by
  rcases item with ⟨c, q, pd, e, st⟩
  rcases e with _ | e
  · exact Or.inl rfl
  · exact Or.inr ⟨_, rfl⟩

/-- Claim C4: every risk score lies in [0, 100], and the priority derived
from it follows the threshold table exactly: ≥ 80 critical, [60, 80) high,
[40, 60) medium, below 40 low. -/
theorem c4_risk_score_bounds_and_priority (today : ℤ) (item : RiskItem)
    (pattern : Pattern) (season : String) (household_size : ℕ) :
    0 ≤ calculate_risk_score today item pattern season household_size ∧
    calculate_risk_score today item pattern season household_size ≤ 100 ∧
    (∀ s : ℚ, s = calculate_risk_score today item pattern season household_size →
      (80 ≤ s → determine_priority s = "critical") ∧
      (60 ≤ s ∧ s < 80 → determine_priority s = "high") ∧
      (40 ≤ s ∧ s < 60 → determine_priority s = "medium") ∧
      (s < 40 → determine_priority s = "low")) := by
  have hb : 0 ≤ calculate_risk_score today item pattern season household_size ∧
      calculate_risk_score today item pattern season household_size ≤ 100 := by
    rcases calculate_risk_score_shape today item pattern season household_size with h | ⟨F, h⟩
    · rw [h]; norm_num
    · rw [h]
      exact round2_mem_of_mem (clamp0_100_mem F).1 (clamp0_100_mem F).2
  refine ⟨hb.1, hb.2, fun s _ => ⟨fun h => ?_, fun h => ?_, fun h => ?_, fun h => ?_⟩⟩
  · unfold determine_priority
    rw [if_pos h]
  · unfold determine_priority
    rw [if_neg (by linarith [h.2]), if_pos h.1]
  · unfold determine_priority
    rw [if_neg (by linarith [h.2]), if_neg (by linarith [h.2]), if_pos h.1]
  · unfold determine_priority
    rw [if_neg (by linarith), if_neg (by linarith), if_neg (by linarith)]

/-- Witness for C4: one litre of dairy expiring tomorrow, bought five days
ago, consumed at 0.2/day by a single-person household in winter, scores 100
and is prioritized `critical`. -/
theorem c4_risk_score_bounds_and_priority_witness :
    determine_priority
      (calculate_risk_score 0 ⟨"dairy", 1, some (-5), some 1, Status.fresh⟩ ⟨1/5, 0⟩ "winter" 1)
      = "critical" := by
  have h := c4_risk_score_bounds_and_priority 0
    ⟨"dairy", 1, some (-5), some 1, Status.fresh⟩ ⟨1/5, 0⟩ "winter" 1
  refine (h.2.2 _ rfl).1 ?_
  norm_num +decide [calculate_risk_score, time_risk, CATEGORY_EXPIRATION_RATES,
    SEASONAL_FACTORS, round2, clamp0_100, min_def, max_def]

/-- Claim C8: an item whose `expiration_date` is null never appears in the
output of `predict_expiration_risks` — every returned prediction carries an
item with a present expiration date (and the embedding is a total function,
so the exclusion raises nothing). -/
theorem c8_null_expiration_excluded (today days_ahead : ℤ) (items : List RiskItem)
    (patterns : String → Pattern) (season : String) (household_size : ℕ) :
    ∀ p ∈ predict_expiration_risks today days_ahead items patterns season household_size,
      p.item.expiration_date ≠ none := by
  intro p hp
  unfold predict_expiration_risks at hp
  rw [List.mem_insertionSort] at hp
  rcases List.mem_map.mp hp with ⟨it, hit, rfl⟩
  have hf := (List.mem_filter.mp hit).2
  intro hnone
  replace hnone : it.expiration_date = none := hnone
  rw [hnone] at hf
  simp at hf

/-- Witness for C8: with one undated-free item expiring at day 10, the single
returned prediction carries a present expiration date. -/
theorem c8_null_expiration_excluded_witness :
    (⟨⟨"x", 0, none, some 10, Status.fresh⟩, 10, 54, 42, "medium"⟩ : Prediction).item.expiration_date ≠ none :=
  c8_null_expiration_excluded 0 20 [⟨"x", 0, none, some 10, Status.fresh⟩]
    (fun _ => ⟨0, 0⟩) "winter" 1 _
    (by norm_num +decide [predict_expiration_risks, calculate_risk_score,
      calculate_ai_ranking_score, determine_priority, time_risk,
      CATEGORY_EXPIRATION_RATES, SEASONAL_FACTORS, round2, clamp0_100,
      min_def, max_def, List.insertionSort, List.orderedInsert])

/-- The append-if loop of `get_high_risk_alerts` is filtering. -/
theorem foldl_if_append_eq_filter {α : Type} (p : α → Bool) :
    ∀ (l acc : List α),
      l.foldl (fun a x => if p x then a ++ [x] else a) acc = acc ++ l.filter p := by
  intro l
  induction l with
  | nil => intro acc; simp
  | cons x t ih =>
    intro acc
    by_cases h : p x
    · simp [h, ih, List.filter_cons]
    · simp [h, ih, List.filter_cons]

/-- Claim C9: predictions come out sorted by `ai_ranking_score` descending,
and `get_high_risk_alerts limit` is exactly the critical-or-high subsequence
of the 7-day predictions, in the same order, truncated to `limit` entries
(hence itself sorted and of length at most `limit`). -/
theorem c9_ranking_order_and_alerts (today days_ahead : ℤ) (limit : ℕ)
    (items : List RiskItem) (patterns : String → Pattern) (season : String)
    (household_size : ℕ) :
    List.Sorted rankGE (predict_expiration_risks today days_ahead items patterns season household_size) ∧
    get_high_risk_alerts today limit items patterns season household_size =
      ((predict_expiration_risks today 7 items patterns season household_size).filter
        (fun p => p.priority == "critical" || p.priority == "high")).take limit ∧
    List.Sorted rankGE (get_high_risk_alerts today limit items patterns season household_size) ∧
    (get_high_risk_alerts today limit items patterns season household_size).length ≤ limit := by
  have hsorted : ∀ da : ℤ,
      List.Sorted rankGE (predict_expiration_risks today da items patterns season household_size) :=
    fun _ => List.sorted_insertionSort rankGE _
  have halerts : get_high_risk_alerts today limit items patterns season household_size =
      ((predict_expiration_risks today 7 items patterns season household_size).filter
        (fun p => p.priority == "critical" || p.priority == "high")).take limit := by
    show (((predict_expiration_risks today 7 items patterns season household_size).foldl
      (fun acc p => if p.priority == "critical" || p.priority == "high" then acc ++ [p] else acc)
      []).take limit) = _
    rw [foldl_if_append_eq_filter]
    simp
  refine ⟨hsorted days_ahead, halerts, ?_, ?_⟩
  · rw [halerts]
    exact List.Pairwise.sublist
      ((List.take_sublist _ _).trans (List.filter_sublist _)) (hsorted 7)
  · rw [halerts]
    exact List.length_take_le _ _

/-- Witness for C9: one item expiring today is scored critical, so the
alerts list is that single prediction. -/
theorem c9_ranking_order_and_alerts_witness :
    get_high_risk_alerts 0 5 [⟨"x", 0, none, some 0, Status.fresh⟩]
      (fun _ => ⟨0, 0⟩) "winter" 1 =
      [⟨⟨"x", 0, none, some 0, Status.fresh⟩, 0, 100, 105, "critical"⟩] := by
  rw [(c9_ranking_order_and_alerts 0 7 5 [⟨"x", 0, none, some 0, Status.fresh⟩]
    (fun _ => ⟨0, 0⟩) "winter" 1).2.1]
  norm_num +decide [predict_expiration_risks, calculate_risk_score,
    calculate_ai_ranking_score, determine_priority, time_risk,
    CATEGORY_EXPIRATION_RATES, SEASONAL_FACTORS, round2, clamp0_100,
    min_def, max_def, List.insertionSort, List.orderedInsert,
    List.filter_cons]

/-- A fresh vegetable item purchased today (1 kg, no expiration date, no
consumption history) contributes 1000 g × 0.25 = 250 g to pattern waste, so
items with status `fresh` do not contribute nothing: the loop only excludes
`consumed`.  This is the concrete input refuting claim C3 as stated. -/
theorem c3_fresh_item_counterexample :
    estimate_weekly_pattern_waste_grams 0 (fun _ => ⟨0, 0⟩)
      [⟨"vegetable", 1, "kg", 0, none, Status.fresh⟩] = 250 ∧ (250 : ℚ) ≠ 0 := by
  constructor
  · norm_num +decide [estimate_weekly_pattern_waste_grams, pattern_item_waste_grams,
      convert_to_grams, gram_conversions, CATEGORY_WASTE_RATES, List.filter_cons]
  · norm_num

/-- Folding `+ g x` over a list sums the mapped list. -/
theorem foldl_add_eq_sum {α : Type} (g : α → ℚ) :
    ∀ (l : List α) (acc : ℚ),
      l.foldl (fun a x => a + g x) acc = acc + (l.map g).sum := by
  intro l
  induction l with
  | nil => intro acc; simp
  | cons x t ih => intro acc; simp [ih, add_assoc]

/-- The loop body's successively reassigned `waste_rate` equals the base
rate times the two independent multipliers. -/
theorem pattern_item_waste_grams_eq (today : ℤ) (patterns : String → Pattern)
    (it : WasteItem) :
    pattern_item_waste_grams today patterns it =
      convert_to_grams it.quantity it.unit *
        (CATEGORY_WASTE_RATES it.category *
          (if 7 < (patterns it.category).frequency then 6/5 else 1) *
          (if (match it.expiration_date with
               | some e => decide (e - today ≤ 3)
               | none => false) then 13/10 else 1)) := by
  rcases it with ⟨c, q, u, pd, e, st⟩
  unfold pattern_item_waste_grams
  rcases e with _ | e
  · by_cases hf : 7 < (patterns c).frequency <;> simp [hf]
  · by_cases hf : 7 < (patterns c).frequency <;>
      by_cases he : e - today ≤ 3 <;>
      simp [hf, he]

/-- Claim C3 as amended: the weekly pattern-waste grams equal the
waste-rate-weighted sum over all items purchased in the window whose status
is not `consumed` — `fresh` items included — with the category base rate
inflated ×1.2 when the category's consumption frequency exceeds 7 days and
×1.3 when the item's expiration date is at most 3 days away. -/
theorem c3_pattern_waste_amended (today : ℤ) (patterns : String → Pattern)
    (items : List WasteItem) :
    estimate_weekly_pattern_waste_grams today patterns items =
      claimed_pattern_waste_grams today patterns items := by
  unfold estimate_weekly_pattern_waste_grams claimed_pattern_waste_grams
  rw [foldl_add_eq_sum (pattern_item_waste_grams today patterns)]
  rw [funext (pattern_item_waste_grams_eq today patterns)]
  simp

/-- Witness for C3 (amended): the loop and the declarative sum agree on a
two-item inventory holding a consumed and a fresh item. -/
theorem c3_pattern_waste_amended_witness :
    estimate_weekly_pattern_waste_grams 0 (fun _ => ⟨0, 0⟩)
      [⟨"vegetable", 1, "kg", 0, none, Status.consumed⟩,
       ⟨"fruit", 2, "g", 0, some 1, Status.fresh⟩] =
      claimed_pattern_waste_grams 0 (fun _ => ⟨0, 0⟩)
      [⟨"vegetable", 1, "kg", 0, none, Status.consumed⟩,
       ⟨"fruit", 2, "g", 0, some 1, Status.fresh⟩] :=
  c3_pattern_waste_amended 0 (fun _ => ⟨0, 0⟩) _

/-- Claim C7: the waste trend factor always lies in [0.9, 1.1], equals 1.0
when the earlier comparison week has zero expired grams, and otherwise is
the clamped last-week / previous-week ratio. -/
theorem c7_waste_trend_bounded (today : ℤ) (items : List WasteItem) :
    (9/10 ≤ calculate_waste_trend today items ∧ calculate_waste_trend today items ≤ 11/10) ∧
    (week1_expired_grams today items = 0 → calculate_waste_trend today items = 1) ∧
    (0 < week1_expired_grams today items →
      calculate_waste_trend today items =
        min (11/10) (max (9/10)
          (week2_expired_grams today items / week1_expired_grams today items))) := by
  unfold calculate_waste_trend
  by_cases h : 0 < week1_expired_grams today items
  · rw [if_pos h]
    refine ⟨⟨le_min (by norm_num) (le_max_left _ _), min_le_left _ _⟩, ?_, fun _ => rfl⟩
    intro h0
    rw [h0] at h
    norm_num at h
  · rw [if_neg h]
    exact ⟨⟨by norm_num, by norm_num⟩, fun _ => rfl, fun hlt => absurd hlt h⟩

/-- Witness for C7: no history gives trend 1; a single 1 kg item expired in
the earlier week and nothing last week gives the clamped ratio 0.9. -/
theorem c7_waste_trend_bounded_witness :
    calculate_waste_trend 0 [] = 1 ∧
    calculate_waste_trend 0 [⟨"vegetable", 1, "kg", 0, some (-8), Status.expired⟩] = 9/10 := by
  constructor
  · exact (c7_waste_trend_bounded 0 []).2.1 (by simp [week1_expired_grams])
  · rw [(c7_waste_trend_bounded 0 [⟨"vegetable", 1, "kg", 0, some (-8), Status.expired⟩]).2.2
      (by norm_num +decide [week1_expired_grams, convert_to_grams, gram_conversions,
        List.filter_cons])]
    norm_num +decide [week1_expired_grams, week2_expired_grams, convert_to_grams,
      gram_conversions, List.filter_cons, min_def, max_def]

/-- Folding `consider_entry` preserves the invariant that any selected
suggestion costs at most the remaining budget: the skip guard precedes the
best-item update. -/
theorem consider_foldl_cost_le (targets : Targets) (budget : ℚ) (category : String) :
    ∀ (l : List CatalogEntry) (acc : Option Suggestion × ℚ),
      (∀ s, acc.1 = some s → s.cost ≤ budget) →
      ∀ s, (l.foldl (consider_entry targets budget category) acc).1 = some s → s.cost ≤ budget := by
  intro l
  induction l with
  | nil => intro acc hacc; simpa using hacc
  | cons x t ih =>
    intro acc hacc
    simp only [List.foldl_cons]
    apply ih
    intro s hs
    simp only [consider_entry] at hs
    split_ifs at hs with h1 h2 h3 h4 <;>
      first
      | exact hacc s hs
      | · replace hs : s = (⟨get_local_cost category x, category⟩ : Suggestion) := by
            simpa using hs.symm
          rw [hs]
          exact le_of_not_lt h1

/-- Any suggestion produced by `_suggest_meal_item_optimized` costs at most
the remaining budget it was given. -/
theorem suggest_cost_le (catalog : String → List CatalogEntry) (targets : Targets)
    (budget : ℚ) (preferred : List String) (s : Suggestion)
    (hs : suggest_meal_item_optimized catalog preferred targets budget = some s) :
    s.cost ≤ budget := by
  have haux : ∀ (pref : List String) (acc : Option Suggestion × ℚ),
      (∀ s, acc.1 = some s → s.cost ≤ budget) →
      ∀ s, (pref.foldl
        (fun acc category =>
          (catalog category).foldl (consider_entry targets budget category) acc)
        acc).1 = some s → s.cost ≤ budget := by
    intro pref
    induction pref with
    | nil => intro acc hacc; simpa using hacc
    | cons c t ih =>
      intro acc hacc
      simp only [List.foldl_cons]
      exact ih _ (consider_foldl_cost_le targets budget c (catalog c) acc hacc)
  unfold suggest_meal_item_optimized at hs
  exact haux preferred (none, -1) (by intro s h; simp at h) s hs

/-- One slot allocation keeps `assigned costs + remaining budget = limit`
and the remaining budget nonnegative. -/
theorem allocate_slot_budget_inv (catalog : String → List CatalogEntry)
    (expiring fresh : List MealInvItem) (preferred : List String)
    (budget_limit : ℚ) (st : OptState)
    (h : st.assigned_catalog_costs.sum + st.remaining_budget = budget_limit ∧
      0 ≤ st.remaining_budget) :
    (allocate_slot catalog expiring fresh preferred st).assigned_catalog_costs.sum
        + (allocate_slot catalog expiring fresh preferred st).remaining_budget = budget_limit ∧
    0 ≤ (allocate_slot catalog expiring fresh preferred st).remaining_budget := by
  unfold allocate_slot
  split
  · simpa using h
  · split
    · simpa using h
    · split
      · next s hsug =>
        have hc := suggest_cost_le catalog st.remaining_targets st.remaining_budget
          preferred s hsug
        refine ⟨?_, by simp only; linarith⟩
        simp only [List.sum_append, List.sum_cons, List.sum_nil]
        linarith [h.1]
      · exact h

/-- The invariant of `allocate_slot_budget_inv` survives any sequence of
slot allocations. -/
theorem foldl_allocate_budget_inv (catalog : String → List CatalogEntry)
    (expiring fresh : List MealInvItem) (budget_limit : ℚ) :
    ∀ (slots : List (List String)) (st : OptState),
      (st.assigned_catalog_costs.sum + st.remaining_budget = budget_limit ∧
        0 ≤ st.remaining_budget) →
      ((slots.foldl (fun st preferred => allocate_slot catalog expiring fresh preferred st)
          st).assigned_catalog_costs.sum
        + (slots.foldl (fun st preferred => allocate_slot catalog expiring fresh preferred st)
          st).remaining_budget = budget_limit ∧
      0 ≤ (slots.foldl (fun st preferred => allocate_slot catalog expiring fresh preferred st)
          st).remaining_budget) := by
  intro slots
  induction slots with
  | nil => intro st h; simpa using h
  | cons p t ih =>
    intro st h
    simp only [List.foldl_cons]
    exact ih _ (allocate_slot_budget_inv catalog expiring fresh p budget_limit st h)

/-- Claim C5: starting from a nonnegative budget, after every allocation
step — every prefix of the 21 meal slots — the cumulative cost of
catalog-sourced assignments is at most the budget limit (so also at the end
of `_optimize_rule_based`), and a suggestion is only ever produced with cost
at most the remaining budget at selection time. -/
theorem c5_budget_never_exceeded (catalog : String → List CatalogEntry)
    (expiring fresh : List MealInvItem) (budget_limit : ℚ)
    (weekly_targets : Targets) (h : 0 ≤ budget_limit) :
    (∀ n : ℕ,
      (((week_slots.take n).foldl
          (fun st preferred => allocate_slot catalog expiring fresh preferred st)
          ⟨[], weekly_targets, budget_limit, []⟩).assigned_catalog_costs.sum
        ≤ budget_limit)) ∧
    (optimize_rule_based catalog expiring fresh budget_limit
      weekly_targets).assigned_catalog_costs.sum ≤ budget_limit ∧
    (∀ (preferred : List String) (targets : Targets) (budget : ℚ) (s : Suggestion),
      suggest_meal_item_optimized catalog preferred targets budget = some s →
      s.cost ≤ budget) := by
  have hinit : (([] : List ℚ).sum + budget_limit = budget_limit ∧ (0:ℚ) ≤ budget_limit) := by
    simpa using h
  refine ⟨fun n => ?_, ?_, fun preferred targets budget s hs =>
    suggest_cost_le catalog targets budget preferred s hs⟩
  · have hm := foldl_allocate_budget_inv catalog expiring fresh budget_limit
      (week_slots.take n) ⟨[], weekly_targets, budget_limit, []⟩ hinit
    linarith [hm.1, hm.2]
  · have hm := foldl_allocate_budget_inv catalog expiring fresh budget_limit
      week_slots ⟨[], weekly_targets, budget_limit, []⟩ hinit
    unfold optimize_rule_based
    linarith [hm.1, hm.2]

/-- Witness for C5: with an empty catalog and no inventory and a 75-dollar
budget, every prefix of the week keeps the assigned-cost total within
budget. -/
theorem c5_budget_never_exceeded_witness :
    (((week_slots.take 21).foldl
        (fun st preferred => allocate_slot (fun _ => []) [] [] preferred st)
        ⟨[], (fun _ => 0), 75, []⟩).assigned_catalog_costs.sum ≤ (75:ℚ)) :=
  (c5_budget_never_exceeded (fun _ => []) [] [] 75 (fun _ => 0) (by norm_num)).1 21

/-- Claim C6: each SDG component score is independently clamped to [0, 100],
and the overall score is exactly the rounded 0.40/0.35/0.25-weighted
combination of the three clamped components. -/
theorem c6_sdg_overall_weighted (inp : SDGInputs) :
    (0 ≤ calculate_waste_reduction_score inp.waste_grams inp.trend_week1
        inp.trend_week2 inp.expired_count inp.expiring_used ∧
      calculate_waste_reduction_score inp.waste_grams inp.trend_week1
        inp.trend_week2 inp.expired_count inp.expiring_used ≤ 100) ∧
    (0 ≤ calculate_nutrition_score inp.imbalances inp.gap_pcts
        inp.unique_categories inp.week_logs inp.veg_fruit_logs ∧
      calculate_nutrition_score inp.imbalances inp.gap_pcts
        inp.unique_categories inp.week_logs inp.veg_fruit_logs ≤ 100) ∧
    (0 ≤ calculate_sustainability_score inp.waste_grams inp.sust_expiring_used
        inp.sust_week_logs ∧
      calculate_sustainability_score inp.waste_grams inp.sust_expiring_used
        inp.sust_week_logs ≤ 100) ∧
    (calculate_sdg_score inp).overall_score =
      round2 ((2/5) * calculate_waste_reduction_score inp.waste_grams inp.trend_week1
          inp.trend_week2 inp.expired_count inp.expiring_used
        + (7/20) * calculate_nutrition_score inp.imbalances inp.gap_pcts
          inp.unique_categories inp.week_logs inp.veg_fruit_logs
        + (1/4) * calculate_sustainability_score inp.waste_grams
          inp.sust_expiring_used inp.sust_week_logs) := by
  refine ⟨clamp0_100_mem _, clamp0_100_mem _, clamp0_100_mem _, ?_⟩
  show round2 _ = round2 _
  congr 1
  ring

/-- Witness for C6: a zero-waste, zero-history week scores 100/100/80 and
overall round2(95) = 95. -/
theorem c6_sdg_overall_weighted_witness :
    (calculate_sdg_score ⟨0, 0, 0, 0, 0, [], [], 0, 0, 0, 0, 0⟩).overall_score = 95 := by
  rw [(c6_sdg_overall_weighted ⟨0, 0, 0, 0, 0, [], [], 0, 0, 0, 0, 0⟩).2.2.2]
  norm_num [calculate_waste_reduction_score, calculate_nutrition_score,
    calculate_sustainability_score, waste_base_score, waste_trend_bonus,
    imbalance_penalty, gap_penalty, variety_bonus, logging_bonus,
    veg_fruit_bonus, clamp0_100, round2, min_def, max_def]

end FoodManagement
